import Mathlib

/-!
Verification of the balsam client-side execution engine
(`balsam/site/job_source.py` and `balsam/site/service/processing.py`)
against its natural-language specification.

The Python source is shallowly embedded: pure functions become Lean
functions, stateful code becomes explicit state passing, Python `int`
arithmetic becomes `Nat`/`Int`, Python `float` time arithmetic becomes
`ℚ`, and code that can raise becomes `Option`/`Except`.
-/

namespace Balsam

/-! ## Node-range prefetch heuristic (`get_node_ranges`, job_source.py:232-248)

```python
def get_node_ranges(num_nodes, prefetch_factor, single_node_prefetch_factor):
    result = []
    num_acquire = prefetch_factor
    while num_nodes:
        lower = min(num_nodes, num_nodes // 2 + 1)
        if num_nodes > 1:
            result.append((lower, num_nodes, num_acquire))
        else:
            result.append((lower, num_nodes, single_node_prefetch_factor))
        num_acquire *= 2
        num_nodes = lower - 1
    return result
```
The while loop is embedded as well-founded recursion on `num_nodes`.
-/

def get_node_ranges_go (num_nodes num_acquire single_node_prefetch_factor : Nat) :
    List (Nat × Nat × Nat) :=
  if h : num_nodes = 0 then []
  else
    let lower := min num_nodes (num_nodes / 2 + 1)
    let bucket :=
      if num_nodes > 1 then (lower, num_nodes, num_acquire)
      else (lower, num_nodes, single_node_prefetch_factor)
    bucket :: get_node_ranges_go (lower - 1) (num_acquire * 2) single_node_prefetch_factor
termination_by num_nodes
decreasing_by
  omega

def get_node_ranges (num_nodes prefetch_factor single_node_prefetch_factor : Nat) :
    List (Nat × Nat × Nat) :=
  get_node_ranges_go num_nodes prefetch_factor single_node_prefetch_factor

/-- A node count `n` is covered by bucket `b = (lower, upper, mult)` when
`lower ≤ n ≤ upper`. -/
def bucketCovers (b : Nat × Nat × Nat) (n : Nat) : Bool :=
  b.1 ≤ n && n ≤ b.2.1

/-! ## Data model (`balsam.schemas.JobState`, `balsam._api.models.Job`)

Only the lifecycle states that the processing pipeline reads or writes are
modelled; `JobState` is a plain enumeration in the source. A `Job` carries
the fields the pipeline touches: identity, owning app id, working directory,
lifecycle state and structured state metadata (a string-keyed dict, embedded
as an association list). -/

inductive JobState where
  | staged_in
  | run_done
  | run_error
  | run_timeout
  | failed
  | preprocessed
  | restart_ready
  | postprocessed
  | running
  | job_finished
deriving DecidableEq, Repr

structure Job where
  id : Nat
  app_id : Nat
  workdir : String
  state : JobState
  state_data : List (String × String)
deriving DecidableEq, Repr

/-- Status record produced by a worker (processing.py:95-102): the dict
pushed onto the status queue, minus the wall-clock timestamp. -/
structure StatusRecord where
  id : Nat
  state : JobState
  state_data : List (String × String)
deriving DecidableEq, Repr

/-! ## Wall-time budget (`job_source.py:148-163` and `job_source.py:211-219`)

`FixedDepthJobSource._get_acquire_parameters` computes
`request_time = max_wall_time_min - elapsed_min` (a float) when
`max_wall_time_min` is truthy, else `None`; `SynchronousJobSource.get_jobs`
computes `round(max_wall_time_min - elapsed_min)` instead. Python float
arithmetic on times is embedded as exact `ℚ` arithmetic, Python ints as `ℤ`,
and Python's `round` (banker's rounding, ties to even) as `roundHalfEven`. -/

def roundHalfEven (q : ℚ) : ℤ :=
  let f := ⌊q⌋
  if q - f < 1 / 2 then f
  else if 1 / 2 < q - f then f + 1
  else if f % 2 = 0 then f else f + 1

def fixed_depth_request_time (max_wall_time_min : Option ℤ) (elapsed_min : ℚ) : Option ℚ :=
  match max_wall_time_min with
  | some w => if w ≠ 0 then some ((w : ℚ) - elapsed_min) else none
  | none => none

def synchronous_request_time (max_wall_time_min : Option ℤ) (elapsed_min : ℚ) : Option ℤ :=
  match max_wall_time_min with
  | some w => if w ≠ 0 then some (roundHalfEven ((w : ℚ) - elapsed_min)) else none
  | none => none

/-- The keyword-argument dict passed to `Session.acquire_jobs`
(job_source.py:155-163 and job_source.py:220-228). -/
structure AcquireParams where
  max_num_jobs : Nat
  max_nodes_per_job : Option Nat
  max_aggregate_nodes : Option ℚ
  max_wall_time_min : Option ℚ
  serial_only : Bool
  filter_tags : List (String × String)
  states : List String
deriving DecidableEq, Repr

/-- Configuration fields shared by both JobSource variants. -/
structure JobSourceConfig where
  serial_only : Bool
  filter_tags : List (String × String)
  states : List String
  max_wall_time_min : Option ℤ
deriving DecidableEq, Repr

/-- `FixedDepthJobSource._get_acquire_parameters` (job_source.py:148-163). -/
def _get_acquire_parameters (cfg : JobSourceConfig)
    (max_nodes_per_job : Option Nat) (max_aggregate_nodes : Option ℚ)
    (num_jobs : Nat) (elapsed_min : ℚ) : AcquireParams :=
  { max_num_jobs := num_jobs
    max_nodes_per_job := max_nodes_per_job
    max_aggregate_nodes := max_aggregate_nodes
    max_wall_time_min := fixed_depth_request_time cfg.max_wall_time_min elapsed_min
    serial_only := cfg.serial_only
    filter_tags := cfg.filter_tags
    states := cfg.states }

/-- One iteration of `FixedDepthJobSource._run`'s fetch loop
(job_source.py:131-142): compute the queue deficit; when it is nonzero,
issue one acquisition for exactly that many jobs and append every returned
job to the local queue (`put_nowait`). Returns the new queue and the
requested count (`none` when no acquisition call was made). -/
def fetch_cycle (prefetch_depth : Nat) (q : List Job)
    (acquire : Nat → List Job) : List Job × Option Nat :=
  let qsize := q.length
  let fetch_count : Int := max 0 ((prefetch_depth : Int) - qsize)
  if fetch_count ≠ 0 then
    (q ++ acquire fetch_count.toNat, some fetch_count.toNat)
  else (q, none)

/-- `SynchronousJobSource.get_jobs` (job_source.py:211-229): build the
request-time value with `round`, issue exactly one acquisition call, and
return every acquired job to the caller. The second component is the trace
of acquisition calls issued. -/
def sync_get_jobs (cfg : JobSourceConfig) (elapsed_min : ℚ) (max_num_jobs : Nat)
    (max_nodes_per_job : Option Nat) (max_aggregate_nodes : Option ℚ)
    (acquire : AcquireParams → List Job) : List Job × List AcquireParams :=
  let params : AcquireParams :=
    { max_num_jobs := max_num_jobs
      max_nodes_per_job := max_nodes_per_job
      max_aggregate_nodes := max_aggregate_nodes
      max_wall_time_min := (synchronous_request_time cfg.max_wall_time_min elapsed_min).map
        (fun z => (z : ℚ))
      serial_only := cfg.serial_only
      filter_tags := cfg.filter_tags
      states := cfg.states }
  (acquire params, [params])

/-! ## Session lease (`SessionThread`, job_source.py:21-54, and the
JobSource shutdown sequence, job_source.py:143-145 and 202-206)

`SessionThread._schedule_next_tick` arms a one-shot timer whose callback is
`_schedule_next_tick` itself, then invokes `_do_tick` (`session.tick()`).
`terminate`/`_run`-exit cancel the armed timer and issue a server-side
`session.delete()`, with no guard against being run twice. The thread-level
behaviour is embedded as a deterministic state machine: `timer_fire` is the
expiry of the armed timer, `ticks` counts heartbeat calls, and `deletes`
counts server-side session deletions. -/

structure SessionLeaseState where
  timer_scheduled : Bool
  ticks : Nat
  deletes : Nat
deriving DecidableEq, Repr

/-- `SessionThread._schedule_next_tick` (job_source.py:46-50): arm the next
timer, then tick the session. -/
def _schedule_next_tick (s : SessionLeaseState) : SessionLeaseState :=
  { s with timer_scheduled := true, ticks := s.ticks + 1 }

/-- Expiry of the armed timer runs `_schedule_next_tick`; a cancelled timer
does nothing. -/
def timer_fire (s : SessionLeaseState) : SessionLeaseState :=
  if s.timer_scheduled then _schedule_next_tick s else s

/-- `SynchronousJobSource.terminate` (job_source.py:202-206), identical to
the tail of `FixedDepthJobSource._run` (job_source.py:143-145):
`timer.cancel()` followed by `session.delete()` — unconditionally. -/
def terminate (s : SessionLeaseState) : SessionLeaseState :=
  { s with timer_scheduled := false, deletes := s.deletes + 1 }

/-- `n` timer expiries in sequence. -/
def timer_fires : Nat → SessionLeaseState → SessionLeaseState
  | 0, s => s
  | n + 1, s => timer_fires n (timer_fire s)

/-- State of a freshly constructed `SessionThread` (job_source.py:28-44):
`__init__` calls `_schedule_next_tick` once, so one tick has occurred and
the timer is armed. -/
def session_thread_started : SessionLeaseState :=
  _schedule_next_tick { timer_scheduled := false, ticks := 0, deletes := 0 }

/-! ## Session creation with batch-allocation lookup
(`SessionThread.__init__`, job_source.py:28-44)

When a `scheduler_id` is supplied, the `BatchJob` lookup may raise
`DoesNotExist`; the constructor catches exactly that, logs a warning, and
creates the session with `batch_job_id = None`. The lookup is embedded as a
function returning `Except Unit Nat` (`.error ()` is `DoesNotExist`). -/

structure SessionCreated where
  site_id : Nat
  batch_job_id : Option Nat
  warned : Bool
deriving DecidableEq, Repr

def session_thread_init (site_id : Nat) (scheduler_id : Option Nat)
    (batch_job_lookup : Nat → Nat → Except Unit Nat) : SessionCreated :=
  match scheduler_id with
  | none => { site_id := site_id, batch_job_id := none, warned := false }
  | some sid =>
    match batch_job_lookup site_id sid with
    | .ok bjid => { site_id := site_id, batch_job_id := some bjid, warned := false }
    | .error _ => { site_id := site_id, batch_job_id := none, warned := true }

/-! ## Processing pipeline (`balsam/site/service/processing.py`)

`job_context` (processing.py:24-43) changes into the job's working
directory (creating it if missing), redirects `sys.stdout`/`sys.stderr` to
a per-job log file, and restores all three in a `finally` block. The
process-level effects are embedded as explicit state: `ProcState` carries
the current working directory, the stdout/stderr targets, and the set of
existing directories. A body that can raise is a function returning the
mutated state together with an `Except` outcome; Python exception semantics
leave the body's state mutations in place. -/

inductive StreamTarget where
  | standard (name : String)
  | file (path : String)
deriving DecidableEq, Repr

structure ProcState where
  cwd : String
  stdout : StreamTarget
  stderr : StreamTarget
  dirs : List String
deriving DecidableEq, Repr

/-- `os.chdir(workdir)` with the `FileNotFoundError` fallback that creates
the directory first (processing.py:29-33). -/
def chdir_or_make (workdir : String) (s : ProcState) : ProcState :=
  if workdir ∈ s.dirs then { s with cwd := workdir }
  else { s with dirs := workdir :: s.dirs, cwd := workdir }

/-- `job_context` (processing.py:24-43). -/
def job_context {ε α : Type} (workdir stdout_filename : String)
    (body : ProcState → ProcState × Except ε α) (s : ProcState) :
    ProcState × Except ε α :=
  let old_stdout := s.stdout
  let old_stderr := s.stderr
  let old_cwd := s.cwd
  let s1 := chdir_or_make workdir s
  let log := StreamTarget.file (workdir ++ "/" ++ stdout_filename)
  let s2 := { s1 with stdout := log, stderr := log }
  let (s3, outcome) := body s2
  ({ s3 with cwd := old_cwd, stdout := old_stdout, stderr := old_stderr }, outcome)

/-- An application class: the four lifecycle transition callables, each of
which may mutate the bound job and may raise (the `Option String` is the
raised exception's text, `none` meaning normal return). -/
structure ApplicationDefinition where
  preprocess : Job → Job × Option String
  postprocess : Job → Job × Option String
  handle_error : Job → Job × Option String
  handle_timeout : Job → Job × Option String

/-- The dispatch dict of `transition` (processing.py:47-52): defined for
exactly the four triggering states; any other state raises `KeyError`
(`none`), outside the `try`. The `String` is the callable's `__name__`. -/
def transition_table (app : ApplicationDefinition) (s : JobState) :
    Option ((Job → Job × Option String) × String) :=
  match s with
  | .staged_in => some (app.preprocess, "preprocess")
  | .run_done => some (app.postprocess, "postprocess")
  | .run_error => some (app.handle_error, "handle_error")
  | .run_timeout => some (app.handle_timeout, "handle_timeout")
  | _ => none

/-- `transition` (processing.py:46-64): dispatch on the job's state (an
unrecognized state raises `KeyError`, returned as `none`); run the selected
callable inside a `try` whose `except` marks the job `FAILED` and attaches
the exception message as state metadata. -/
def transition (app : ApplicationDefinition) (j : Job) : Option Job :=
  match transition_table app j.state with
  | none => none
  | some (f, name) =>
    match f j with
    | (j', none) => some j'
    | (j', some exc) =>
      some { j' with
             state := .failed
             state_data := [("message", "An exception occured in " ++ name),
                            ("exception", exc)] }

/-- An exception that escapes the worker loop body and kills the worker:
a `KeyError` on the app cache (processing.py:89) or on the transition
dispatch dict (processing.py:47-52). -/
inductive WorkerCrash where
  | app_key_error (app_id : Nat)
  | state_key_error (state : JobState)
deriving DecidableEq, Repr

/-- The body of one iteration of `run_worker`'s loop for a dequeued job
(processing.py:88-103): resolve the app class, run `transition` inside
`job_context`, and build the status-queue record. -/
def worker_step (app_cache : Nat → Option ApplicationDefinition) (data_path : String)
    (j : Job) (s : ProcState) : ProcState × Except WorkerCrash StatusRecord :=
  match app_cache j.app_id with
  | none => (s, .error (.app_key_error j.app_id))
  | some app =>
    let workdir := data_path ++ "/" ++ j.workdir
    let (s', outcome) := job_context workdir "balsam.log"
      (fun st =>
        match transition app j with
        | none => (st, .error (WorkerCrash.state_key_error j.state))
        | some j' => (st, .ok j')) s
    match outcome with
    | .error e => (s', .error e)
    | .ok j' =>
      (s', .ok { id := j'.id
                 state := j'.state
                 state_data := if j'.state_data = [] then [] else j'.state_data })

/-- `run_worker` (processing.py:67-104) over the sequence of jobs the worker
dequeues: emit one status record per job; an uncaught exception terminates
the loop, leaving the remaining jobs unserved. Returns the final process
state, the emitted records in order, and the crash (if any). -/
def run_worker (app_cache : Nat → Option ApplicationDefinition) (data_path : String) :
    List Job → ProcState → ProcState × List StatusRecord × Option WorkerCrash
  | [], s => (s, [], none)
  | j :: rest, s =>
    match worker_step app_cache data_path j s with
    | (s', .error e) => (s', [], some e)
    | (s', .ok rec) =>
      let out := run_worker app_cache data_path rest s'
      (out.1, rec :: out.2.1, out.2.2)

/-- The state at which `job_context` invokes its body: working directory
changed to `workdir`, stdout and stderr redirected to the per-job log. -/
def job_context_entry (workdir stdout_filename : String) (s : ProcState) : ProcState :=
  let log := StreamTarget.file (workdir ++ "/" ++ stdout_filename)
  { chdir_or_make workdir s with stdout := log, stderr := log }

lemma go_zero (a s : Nat) : get_node_ranges_go 0 a s = [] := by
  rw [get_node_ranges_go]
  simp

lemma go_pos (n a s : Nat) (h : n ≠ 0) :
    get_node_ranges_go n a s =
      (if n > 1 then (min n (n / 2 + 1), n, a) else (min n (n / 2 + 1), n, s)) ::
        get_node_ranges_go (min n (n / 2 + 1) - 1) (a * 2) s := by
  rw [get_node_ranges_go]
  simp [h]

lemma go_one (a s : Nat) : get_node_ranges_go 1 a s = [(1, 1, s)] := by
  rw [go_pos 1 a s one_ne_zero]
  norm_num [go_zero]

lemma go_two_le (n a s : Nat) (h : 2 ≤ n) :
    get_node_ranges_go n a s =
      (n / 2 + 1, n, a) :: get_node_ranges_go (n / 2) (a * 2) s := by
  rw [go_pos n a s (by omega)]
  have h1 : min n (n / 2 + 1) = n / 2 + 1 := by omega
  have h2 : n / 2 + 1 - 1 = n / 2 := by omega
  rw [h1, h2, if_pos (by omega)]

lemma go_ne_nil (n a s : Nat) (h : 1 ≤ n) : get_node_ranges_go n a s ≠ [] := by
  rw [go_pos n a s (by omega)]
  simp

/-- Every bucket `(lower, upper, mult)` produced for a remaining node count
`upper > 1` has `lower = upper / 2 + 1`, and the base-case bucket is exactly
`(1, 1, single_node_prefetch_factor)`. -/
lemma go_bucket_shape (n : Nat) :
    ∀ a s b, b ∈ get_node_ranges_go n a s →
      (1 < b.2.1 → b.1 = b.2.1 / 2 + 1) ∧ (b.2.1 = 1 → b.1 = 1 ∧ b.2.2 = s) := by
  induction n using Nat.strong_induction_on with
  | _ n ih =>
    intro a s b hb
    rcases Nat.lt_or_ge n 2 with hn | hn
    · interval_cases n
      · rw [go_zero] at hb
        exact absurd hb (List.not_mem_nil b)
      · rw [go_one] at hb
        rcases List.mem_singleton.mp hb with rfl
        exact ⟨fun h => absurd h (by norm_num), fun _ => ⟨rfl, rfl⟩⟩
    · rw [go_two_le n a s hn] at hb
      rcases List.mem_cons.mp hb with rfl | htail
      · refine ⟨fun _ => rfl, fun h1 => ?_⟩
        simp at h1
        omega
      · exact ih (n / 2) (by omega) (a * 2) s b htail

/-- The last bucket produced is always the single-node bucket
`(1, 1, single_node_prefetch_factor)`. -/
lemma go_last (n : Nat) (h : 1 ≤ n) :
    ∀ a s, (get_node_ranges_go n a s).getLast? = some (1, 1, s) := by
  induction n using Nat.strong_induction_on with
  | _ n ih =>
    intro a s
    rcases Nat.lt_or_ge n 2 with hn | hn
    · interval_cases n
      · rw [go_one]
        rfl
    · rw [go_two_le n a s hn, go_pos (n / 2) (a * 2) s (by omega),
        List.getLast?_cons_cons, ← go_pos (n / 2) (a * 2) s (by omega)]
      exact ih (n / 2) (by omega) (by omega) (a * 2) s

lemma roundHalfEven_intCast (z : ℤ) : roundHalfEven (z : ℚ) = z := by
  simp [roundHalfEven]

lemma timer_fires_cancelled (n : Nat) (s : SessionLeaseState)
    (h : s.timer_scheduled = false) : timer_fires n s = s := by
  induction n with
  | zero => rfl
  | succ n ih => simp [timer_fires, timer_fire, h, ih]

lemma chdir_or_make_cwd (workdir : String) (s : ProcState) :
    (chdir_or_make workdir s).cwd = workdir := by
  unfold chdir_or_make
  split <;> rfl

lemma job_context_eq {ε α : Type} (workdir fn : String)
    (body : ProcState → ProcState × Except ε α) (s : ProcState) :
    job_context workdir fn body s =
      ({ (body (job_context_entry workdir fn s)).1 with
          cwd := s.cwd, stdout := s.stdout, stderr := s.stderr },
       (body (job_context_entry workdir fn s)).2) := by
  simp only [job_context_entry] at *
  rcases h : body { chdir_or_make workdir s with
      stdout := StreamTarget.file (workdir ++ "/" ++ fn),
      stderr := StreamTarget.file (workdir ++ "/" ++ fn) } with ⟨s3, out⟩
  simp [job_context, h]

lemma transition_raises (app : ApplicationDefinition) (j j' : Job)
    (f : Job → Job × Option String) (name exc : String)
    (hdispatch : transition_table app j.state = some (f, name))
    (hraise : f j = (j', some exc)) :
    transition app j =
      some { j' with
             state := .failed
             state_data := [("message", "An exception occured in " ++ name),
                            ("exception", exc)] } := by
  simp [transition, hdispatch, hraise]

lemma transition_table_none (app : ApplicationDefinition) (st : JobState)
    (h : st ∉ [JobState.staged_in, .run_done, .run_error, .run_timeout]) :
    transition_table app st = none := by
  cases st <;> simp_all [transition_table]

/-- C2: `get_node_ranges 8 2 1` returns buckets whose node ranges cover every
node count in `[1, 8]` exactly once, with prefetch multipliers `2, 4, 8`
doubling per bucket from the top-node bucket downward, and the final
single-node bucket carrying the `single_node_prefetch_factor` argument `1`. -/
theorem node_ranges_8_partition_and_multipliers :
    get_node_ranges 8 2 1 = [(5, 8, 2), (3, 4, 4), (2, 2, 8), (1, 1, 1)] ∧
    (∀ n : Fin 8, (get_node_ranges 8 2 1).countP (fun b => bucketCovers b (n.1 + 1)) = 1) ∧
    (get_node_ranges 8 2 1).map (fun b => b.2.2) = [2, 4, 8, 1] ∧
    (get_node_ranges 8 2 1).getLast? = some (1, 1, 1) := by
  have h : get_node_ranges 8 2 1 = [(5, 8, 2), (3, 4, 4), (2, 2, 8), (1, 1, 1)] := by
    simp [get_node_ranges, go_pos, go_zero]
  refine ⟨h, ?_, ?_, ?_⟩ <;> simp only [h] <;> decide

/-- C3 counterexample: for `num_nodes = 3`, the bucket produced for the
remaining node count `3 > 1` is `(2, 3, 2)`: its lower bound is `2`, not
`ceil(3/2) + 1 = 3` as the claim states. -/
theorem node_ranges_ceil_bound_counterexample :
    ∃ b ∈ get_node_ranges 3 2 1, 1 < b.2.1 ∧ b.1 ≠ (b.2.1 + 1) / 2 + 1 := by
  have h : get_node_ranges 3 2 1 = [(2, 3, 2), (1, 1, 1)] := by
    simp [get_node_ranges, go_pos, go_zero]
  simp only [h]
  decide

/-- C3 amended: for every `num_nodes ≥ 1`, every bucket whose current
remaining node count is `n > 1` covers exactly the range
`(floor(n/2) + 1 .. n)` (not `ceil(n/2) + 1`), the base-case bucket covers
exactly node count `1`, the multiplier doubles at each halving step, and the
single-node bucket uses the distinct `single_node_prefetch_factor`. -/
theorem node_ranges_floor_halving (num_nodes prefetch_factor snf : Nat) :
    (∀ b ∈ get_node_ranges num_nodes prefetch_factor snf,
       (1 < b.2.1 → b.1 = b.2.1 / 2 + 1) ∧ (b.2.1 = 1 → b.1 = 1 ∧ b.2.2 = snf)) ∧
    (1 ≤ num_nodes →
       (get_node_ranges num_nodes prefetch_factor snf).getLast? = some (1, 1, snf)) ∧
    (2 ≤ num_nodes →
       get_node_ranges num_nodes prefetch_factor snf =
         (num_nodes / 2 + 1, num_nodes, prefetch_factor) ::
           get_node_ranges_go (num_nodes / 2) (prefetch_factor * 2) snf) ∧
    get_node_ranges 1 prefetch_factor snf = [(1, 1, snf)] :=
  ⟨fun b hb => go_bucket_shape num_nodes prefetch_factor snf b hb,
   fun h => go_last num_nodes h prefetch_factor snf,
   fun h => go_two_le num_nodes prefetch_factor snf h,
   go_one prefetch_factor snf⟩

/-- Witness for `node_ranges_floor_halving`, at concrete inputs `3 2 1` and
`8 2 1`. -/
theorem node_ranges_floor_halving_witness :
    (1 < (3:Nat) → (2:Nat) = 3 / 2 + 1) ∧
    (get_node_ranges 8 2 1).getLast? = some (1, 1, 1) :=
  ⟨((node_ranges_floor_halving 3 2 1).1 (2, 3, 2)
      (by simp [get_node_ranges, go_pos, go_zero])).1,
   (node_ranges_floor_halving 8 2 1).2.1 (by norm_num)⟩

/-- C4: in every iteration of the prefetching Job Source's fetch loop, the
requested job count equals `max(0, prefetch_depth - qsize)`: at or above the
target depth no acquisition call is made, and at a deficit of `k > 0` exactly
`k` jobs are requested and every returned job is appended to the local
queue. -/
theorem fixed_depth_fetch_cycle_deficit (depth : Nat) (q : List Job)
    (acquire : Nat → List Job) :
    (fetch_cycle depth q acquire).2.getD 0 = (max 0 ((depth : Int) - q.length)).toNat ∧
    (depth ≤ q.length → fetch_cycle depth q acquire = (q, none)) ∧
    (∀ k, 0 < k → q.length + k = depth →
       fetch_cycle depth q acquire = (q ++ acquire k, some k)) := by
  by_cases hle : depth ≤ q.length
  · have h0 : max 0 ((depth : Int) - q.length) = 0 := by omega
    refine ⟨?_, fun _ => ?_, fun k hk hsum => absurd hsum (by omega)⟩ <;>
      simp [fetch_cycle, h0]
  · have h0 : max 0 ((depth : Int) - q.length) = (depth : Int) - q.length := by omega
    have hne : ((depth : Int) - q.length) ≠ 0 := by omega
    refine ⟨?_, fun h => absurd h hle, fun k hk hsum => ?_⟩
    · simp [fetch_cycle, h0, hne]
    · have hk' : ((depth : Int) - (q.length : Int)).toNat = k := by omega
      simp [fetch_cycle, h0, hne, hk']

/-- Witness for `fixed_depth_fetch_cycle_deficit` at depth 4 and a queue of
one job: the cycle requests exactly 3 jobs. -/
theorem fixed_depth_fetch_cycle_deficit_witness :
    (4 : Nat) ≤ 4 ∧ 0 < 3 ∧ 1 + 3 = 4 ∧
    fetch_cycle 4 [⟨1, 1, "w", JobState.staged_in, []⟩] (fun _ => []) =
      ([⟨1, 1, "w", JobState.staged_in, []⟩], some 3) :=
  ⟨by norm_num, by norm_num, by norm_num,
   (fixed_depth_fetch_cycle_deficit 4 [⟨1, 1, "w", JobState.staged_in, []⟩]
      (fun _ => [])).2.2 3 (by norm_num) (by norm_num)⟩

/-- C5 counterexample: with `max_wall_time_min = 60` and 0.5 minutes
elapsed, the prefetching variant's request carries `59.5` remaining minutes
while the synchronous variant carries `round(59.5) = 60` — the two variants
do not produce the same remaining-wall-time value. -/
theorem sync_request_time_counterexample :
    fixed_depth_request_time (some 60) (1 / 2) = some (119 / 2) ∧
    synchronous_request_time (some 60) (1 / 2) = some 60 ∧
    (synchronous_request_time (some 60) (1 / 2)).map (fun z => (z : ℚ)) ≠
      fixed_depth_request_time (some 60) (1 / 2) := by
  refine ⟨?_, ?_, ?_⟩ <;>
    norm_num [fixed_depth_request_time, synchronous_request_time, roundHalfEven]

/-- C5 amended: every call to the synchronous Job Source's `get_jobs` issues
exactly one acquisition call and returns every acquired job to the caller
(no local buffering); its remaining-wall-time value is the banker's-rounded
(`round`) integer of the value the prefetching variant computes for the same
`max_wall_time_min` and elapsed time, so the two variants agree exactly when
the unrounded value is an integer. -/
theorem sync_get_jobs_one_call_rounded (cfg : JobSourceConfig) (elapsed_min : ℚ)
    (max_num_jobs : Nat) (mnpj : Option Nat) (man : Option ℚ)
    (acquire : AcquireParams → List Job) :
    (∃ p : AcquireParams,
        sync_get_jobs cfg elapsed_min max_num_jobs mnpj man acquire = (acquire p, [p]) ∧
        p.max_num_jobs = max_num_jobs ∧
        p.max_wall_time_min =
          (synchronous_request_time cfg.max_wall_time_min elapsed_min).map
            (fun z => (z : ℚ))) ∧
    synchronous_request_time cfg.max_wall_time_min elapsed_min =
      (fixed_depth_request_time cfg.max_wall_time_min elapsed_min).map roundHalfEven ∧
    (_get_acquire_parameters cfg mnpj man max_num_jobs elapsed_min).max_wall_time_min =
      fixed_depth_request_time cfg.max_wall_time_min elapsed_min ∧
    (∀ z : ℤ, fixed_depth_request_time cfg.max_wall_time_min elapsed_min = some ((z : ℤ) : ℚ) →
        synchronous_request_time cfg.max_wall_time_min elapsed_min = some z) := by
  refine ⟨⟨_, rfl, rfl, rfl⟩, ?_, rfl, ?_⟩
  · cases h : cfg.max_wall_time_min with
    | none => simp [synchronous_request_time, fixed_depth_request_time]
    | some w =>
      by_cases hw : w = 0 <;>
        simp [synchronous_request_time, fixed_depth_request_time, hw]
  · intro z hz
    cases h : cfg.max_wall_time_min with
    | none => simp [fixed_depth_request_time, h] at hz
    | some w =>
      by_cases hw : w = 0
      · simp [fixed_depth_request_time, h, hw] at hz
      · simp only [fixed_depth_request_time, h, hw, if_neg, ne_eq,
          not_false_iff, if_true, Option.some.injEq] at hz
        simp only [synchronous_request_time, h, hw, ne_eq, not_false_iff, if_true]
        rw [hz, roundHalfEven_intCast]

/-- Witness for `sync_get_jobs_one_call_rounded` at `max_wall_time_min = 60`
and 10 minutes elapsed. -/
theorem sync_get_jobs_one_call_rounded_witness :
    fixed_depth_request_time (some 60) 10 = some ((50 : ℤ) : ℚ) ∧
    synchronous_request_time (some 60) 10 = some 50 := by
  have h : fixed_depth_request_time (some 60) 10 = some ((50 : ℤ) : ℚ) := by
    norm_num [fixed_depth_request_time]
  exact ⟨h, (sync_get_jobs_one_call_rounded ⟨false, [], [], some 60⟩ 10 1 none none
    (fun _ => [])).2.2.2 50 h⟩

/-- C8: with `max_wall_time_min = 60` and 10 minutes elapsed, the
acquisition request carries a remaining-wall-time of 50 minutes (in both
variants), and the remaining-wall-time value is strictly decreasing as
elapsed time grows. -/
theorem request_time_50_and_decreasing :
    fixed_depth_request_time (some 60) 10 = some 50 ∧
    synchronous_request_time (some 60) 10 = some 50 ∧
    (∀ (w : ℤ) (e1 e2 v1 v2 : ℚ), e1 < e2 →
        fixed_depth_request_time (some w) e1 = some v1 →
        fixed_depth_request_time (some w) e2 = some v2 → v2 < v1) := by
  refine ⟨by norm_num [fixed_depth_request_time], ?_, ?_⟩
  · have : ((50 : ℤ) : ℚ) = (50 : ℚ) := by norm_num
    norm_num [synchronous_request_time, roundHalfEven]
  · intro w e1 e2 v1 v2 he h1 h2
    by_cases hw : w = 0
    · simp [fixed_depth_request_time, hw] at h1
    · simp only [fixed_depth_request_time, hw, ne_eq, not_false_iff, if_true,
        Option.some.injEq] at h1 h2
      rw [← h1, ← h2]
      linarith

/-- Witness for `request_time_50_and_decreasing`: between 10 and 20 minutes
elapsed the remaining time falls from 50 to 40. -/
theorem request_time_50_and_decreasing_witness :
    (10 : ℚ) < 20 ∧
    fixed_depth_request_time (some 60) 10 = some 50 ∧
    fixed_depth_request_time (some 60) 20 = some 40 ∧ (40 : ℚ) < 50 := by
  have h10 : fixed_depth_request_time (some 60) 10 = some 50 := by
    norm_num [fixed_depth_request_time]
  have h20 : fixed_depth_request_time (some 60) 20 = some 40 := by
    norm_num [fixed_depth_request_time]
  exact ⟨by norm_num, h10, h20,
    request_time_50_and_decreasing.2.2 60 10 20 50 40 (by norm_num) h10 h20⟩

/-- C6 counterexample: a second close after one has completed is not a
no-op — it issues a second server-side session delete (there is no
double-close guard in the code). -/
theorem lease_double_close_counterexample :
    terminate (terminate session_thread_started) ≠ terminate session_thread_started := by
  decide

/-- C6 amended: `close()` (the terminate sequence) cancels the heartbeat
timer, and the heartbeat is never invoked after `close()` returns: any
number of timer expiries after a close leaves the state unchanged, so the
tick count stays fixed. A second close leaves the timer cancelled and the
tick count unchanged, but re-issues the server-side session delete — close
is not idempotent, as the code has no double-close guard. -/
theorem lease_close_no_tick_after_and_double_delete (s : SessionLeaseState) (n : Nat) :
    timer_fires n (terminate s) = terminate s ∧
    (timer_fires n (terminate s)).ticks = s.ticks ∧
    (terminate (terminate s)).timer_scheduled = false ∧
    (terminate (terminate s)).ticks = s.ticks ∧
    (terminate (terminate s)).deletes = s.deletes + 2 := by
  have h : timer_fires n (terminate s) = terminate s :=
    timer_fires_cancelled n (terminate s) rfl
  exact ⟨h, by rw [h]; rfl, rfl, rfl, rfl⟩

/-- C7: when a session is opened with a scheduler id but the
batch-allocation lookup fails, the session is still created, with no
allocation binding and a warning surfaced. -/
theorem session_created_without_binding_on_lookup_failure
    (site_id sid : Nat) (batch_job_lookup : Nat → Nat → Except Unit Nat)
    (h : batch_job_lookup site_id sid = .error ()) :
    session_thread_init site_id (some sid) batch_job_lookup =
      { site_id := site_id, batch_job_id := none, warned := true } := by
  simp [session_thread_init, h]

/-- Witness for `session_created_without_binding_on_lookup_failure` with a
lookup that always raises `DoesNotExist`. -/
theorem session_created_without_binding_on_lookup_failure_witness :
    session_thread_init 7 (some 3) (fun _ _ => .error ()) =
      { site_id := 7, batch_job_id := none, warned := true } :=
  session_created_without_binding_on_lookup_failure 7 3 (fun _ _ => .error ()) rfl

/-- C1: for every Job dequeued by a worker whose transition function raises,
the worker catches the exception, emits a status record with state `FAILED`
whose state metadata is non-empty and contains the exception text, and
continues its loop to serve the remaining jobs. -/
theorem worker_failure_isolation
    (app_cache : Nat → Option ApplicationDefinition) (data_path : String)
    (app : ApplicationDefinition) (j j' : Job) (f : Job → Job × Option String)
    (name exc : String) (rest : List Job) (s : ProcState)
    (hcache : app_cache j.app_id = some app)
    (hdispatch : transition_table app j.state = some (f, name))
    (hraise : f j = (j', some exc)) :
    ∃ s' rec,
      worker_step app_cache data_path j s = (s', .ok rec) ∧
      rec.state = .failed ∧
      rec.state_data ≠ [] ∧
      ("exception", exc) ∈ rec.state_data ∧
      rec.id = j'.id ∧
      run_worker app_cache data_path (j :: rest) s =
        ((run_worker app_cache data_path rest s').1,
         rec :: (run_worker app_cache data_path rest s').2.1,
         (run_worker app_cache data_path rest s').2.2) := by
  have htr := transition_raises app j j' f name exc hdispatch hraise
  have hstep : worker_step app_cache data_path j s =
      ((job_context (data_path ++ "/" ++ j.workdir) "balsam.log"
          (fun st => (st, (Except.ok
            { j' with
              state := .failed
              state_data := [("message", "An exception occured in " ++ name),
                             ("exception", exc)] } : Except WorkerCrash Job))) s).1,
       .ok { id := j'.id
             state := .failed
             state_data := [("message", "An exception occured in " ++ name),
                            ("exception", exc)] }) := by
    simp only [worker_step, hcache, htr]
    rw [job_context_eq]
    simp
  refine ⟨_, _, hstep, rfl, by simp, by simp, rfl, ?_⟩
  simp only [run_worker, hstep]

/-- Witness for `worker_failure_isolation`: a single job in state
`STAGED_IN` whose `preprocess` raises `"boom"`. -/
theorem worker_failure_isolation_witness :
    ∃ s' rec,
      worker_step
        (fun _ => some
          { preprocess := fun j => (j, some "boom")
            postprocess := fun j => (j, none)
            handle_error := fun j => (j, none)
            handle_timeout := fun j => (j, none) })
        "/data" ⟨1, 0, "w", .staged_in, []⟩
        ⟨"/", .standard "stdout", .standard "stderr", ["/"]⟩ = (s', .ok rec) ∧
      rec.state = .failed ∧
      rec.state_data ≠ [] ∧
      ("exception", "boom") ∈ rec.state_data ∧
      rec.id = 1 ∧
      run_worker
        (fun _ => some
          { preprocess := fun j => (j, some "boom")
            postprocess := fun j => (j, none)
            handle_error := fun j => (j, none)
            handle_timeout := fun j => (j, none) })
        "/data" [⟨1, 0, "w", .staged_in, []⟩]
        ⟨"/", .standard "stdout", .standard "stderr", ["/"]⟩ =
        ((run_worker (fun _ => some
            { preprocess := fun j => (j, some "boom")
              postprocess := fun j => (j, none)
              handle_error := fun j => (j, none)
              handle_timeout := fun j => (j, none) }) "/data" [] s').1,
         rec :: (run_worker (fun _ => some
            { preprocess := fun j => (j, some "boom")
              postprocess := fun j => (j, none)
              handle_error := fun j => (j, none)
              handle_timeout := fun j => (j, none) }) "/data" [] s').2.1,
         (run_worker (fun _ => some
            { preprocess := fun j => (j, some "boom")
              postprocess := fun j => (j, none)
              handle_error := fun j => (j, none)
              handle_timeout := fun j => (j, none) }) "/data" [] s').2.2) :=
  worker_failure_isolation
    (fun _ => some
      { preprocess := fun j => (j, some "boom")
        postprocess := fun j => (j, none)
        handle_error := fun j => (j, none)
        handle_timeout := fun j => (j, none) })
    "/data" _ ⟨1, 0, "w", .staged_in, []⟩ ⟨1, 0, "w", .staged_in, []⟩
    (fun j => (j, some "boom")) "preprocess" "boom" []
    ⟨"/", .standard "stdout", .standard "stderr", ["/"]⟩ rfl rfl rfl

/-- C9: the transition runs inside a scope that changes into the job's
working directory and redirects stdout/stderr to the per-job log file, and
on every exit path of that scope — normal return or exception — the prior
working directory and stream targets are restored. Stated for an arbitrary
body (so it covers both outcomes of the `Except`), and also for the
worker-loop body as a whole. -/
theorem job_context_scope_restores {ε α : Type} (workdir fn : String)
    (body : ProcState → ProcState × Except ε α) (s : ProcState)
    (app_cache : Nat → Option ApplicationDefinition) (data_path : String) (j : Job) :
    ((job_context_entry workdir fn s).cwd = workdir ∧
     (job_context_entry workdir fn s).stdout = .file (workdir ++ "/" ++ fn) ∧
     (job_context_entry workdir fn s).stderr = .file (workdir ++ "/" ++ fn)) ∧
    job_context workdir fn body s =
      ({ (body (job_context_entry workdir fn s)).1 with
          cwd := s.cwd, stdout := s.stdout, stderr := s.stderr },
       (body (job_context_entry workdir fn s)).2) ∧
    ((job_context workdir fn body s).1.cwd = s.cwd ∧
     (job_context workdir fn body s).1.stdout = s.stdout ∧
     (job_context workdir fn body s).1.stderr = s.stderr) ∧
    ((worker_step app_cache data_path j s).1.cwd = s.cwd ∧
     (worker_step app_cache data_path j s).1.stdout = s.stdout ∧
     (worker_step app_cache data_path j s).1.stderr = s.stderr) := by
  refine ⟨⟨chdir_or_make_cwd workdir s, rfl, rfl⟩, job_context_eq workdir fn body s, ?_, ?_⟩
  · rw [job_context_eq workdir fn body s]
    exact ⟨rfl, rfl, rfl⟩
  · cases hc : app_cache j.app_id with
    | none => simp [worker_step, hc]
    | some app =>
      simp only [worker_step, hc]
      rw [job_context_eq]
      cases transition app j <;> simp

/-- C10: if a worker dequeues a Job in a state outside the four triggering
states, the transition dispatch raises `KeyError` before the
exception-handling scope: the job is not marked `FAILED` (the dispatch
yields no job at all), no status record is emitted for it, and the worker
loop terminates on the uncaught exception, leaving the remaining jobs
unserved. -/
theorem worker_crash_on_unrecognized_state
    (app_cache : Nat → Option ApplicationDefinition) (data_path : String)
    (app : ApplicationDefinition) (j : Job) (rest : List Job) (s : ProcState)
    (hcache : app_cache j.app_id = some app)
    (hstate : j.state ∉ [JobState.staged_in, .run_done, .run_error, .run_timeout]) :
    transition app j = none ∧
    (worker_step app_cache data_path j s).2 = .error (.state_key_error j.state) ∧
    run_worker app_cache data_path (j :: rest) s =
      ((worker_step app_cache data_path j s).1, [], some (.state_key_error j.state)) := by
  have ht : transition app j = none := by
    simp [transition, transition_table_none app j.state hstate]
  have hsnd : (worker_step app_cache data_path j s).2 =
      .error (.state_key_error j.state) := by
    simp only [worker_step, hcache]
    rw [job_context_eq]
    simp [ht]
  have hstep : worker_step app_cache data_path j s =
      ((worker_step app_cache data_path j s).1, .error (.state_key_error j.state)) := by
    rw [← hsnd]
  refine ⟨ht, hsnd, ?_⟩
  rw [run_worker, hstep]

/-- Witness for `worker_crash_on_unrecognized_state`: a job dequeued in
state `PREPROCESSED` kills the worker with no status record. -/
theorem worker_crash_on_unrecognized_state_witness :
    transition
      { preprocess := fun j => (j, none)
        postprocess := fun j => (j, none)
        handle_error := fun j => (j, none)
        handle_timeout := fun j => (j, none) }
      ⟨1, 0, "w", .preprocessed, []⟩ = none ∧
    (worker_step
      (fun _ => some
        { preprocess := fun j => (j, none)
          postprocess := fun j => (j, none)
          handle_error := fun j => (j, none)
          handle_timeout := fun j => (j, none) })
      "/data" ⟨1, 0, "w", .preprocessed, []⟩
      ⟨"/", .standard "stdout", .standard "stderr", ["/"]⟩).2 =
      .error (.state_key_error JobState.preprocessed) ∧
    run_worker
      (fun _ => some
        { preprocess := fun j => (j, none)
          postprocess := fun j => (j, none)
          handle_error := fun j => (j, none)
          handle_timeout := fun j => (j, none) })
      "/data" [⟨1, 0, "w", .preprocessed, []⟩]
      ⟨"/", .standard "stdout", .standard "stderr", ["/"]⟩ =
      ((worker_step
          (fun _ => some
            { preprocess := fun j => (j, none)
              postprocess := fun j => (j, none)
              handle_error := fun j => (j, none)
              handle_timeout := fun j => (j, none) })
          "/data" ⟨1, 0, "w", .preprocessed, []⟩
          ⟨"/", .standard "stdout", .standard "stderr", ["/"]⟩).1, [],
       some (.state_key_error JobState.preprocessed)) :=
  worker_crash_on_unrecognized_state
    (fun _ => some
      { preprocess := fun j => (j, none)
        postprocess := fun j => (j, none)
        handle_error := fun j => (j, none)
        handle_timeout := fun j => (j, none) })
    "/data" _ ⟨1, 0, "w", .preprocessed, []⟩ []
    ⟨"/", .standard "stdout", .standard "stderr", ["/"]⟩ rfl (by decide)

end Balsam

